import Mathlib

/-!
Verification of the command dispatcher and device-resolution subsystem of
the DQN Ice Hockey command-line front end (`main.py`).

The embedding models the observable behaviour of `main` and
`determine_device` as pure functions producing a trace of events (one
event per `print`, hardware-capability query, or collaborator call in the
source) together with a process exit code and the final state of the
mutable `config` module.  Collaborators (`train`, `evaluate_model`,
`compare_models`, `plot_evaluation_results`, `utils.get_device`) are
external to the repository and are represented by their observable calls
plus an environment describing their reported outcome.
-/

/-- The execution targets `torch.device` can name in this program. -/
inductive Device
  | cpu
  | cuda
  | mps
  deriving Repr, DecidableEq

/-- Hardware-capability state as queried by `determine_device`:
`torch.cuda.is_available()`, `torch.cuda.get_device_name()`, the presence
of the `torch.backends.mps` attribute, and `torch.backends.mps.is_available()`. -/
structure Caps where
  cudaAvailable : Bool
  cudaDeviceName : String
  mpsBackendExists : Bool
  mpsAvailable : Bool
  deriving Repr, DecidableEq

/-- An Apple-Silicon accelerator counts as available when the `mps`
backend attribute exists and reports availability, mirroring
`hasattr(torch.backends, "mps") and torch.backends.mps.is_available()`. -/
def appleSiliconAvailable (caps : Caps) : Bool :=
  caps.mpsBackendExists && caps.mpsAvailable

/-- The mutable module-level configuration (`config.py` holds the
compiled-in defaults; `main` reads and writes `config.TRAINING_EPISODES`
and `config.LEARNING_STARTS`).  `others` stands for the remaining
training parameters, which `main` never touches; the field inventory
beyond the two named fields is modelled from the spec because `config.py`
is not part of the dispatcher source. -/
structure Config where
  TRAINING_EPISODES : Int
  LEARNING_STARTS : Int
  others : List Int
  deriving Repr, DecidableEq

/-- The parsed argparse namespace.  `command` is `args.command` (the
subparser `dest`, absent when no subcommand was given).  `hasGpuCpu`
records whether the namespace carries the `gpu`/`cpu` attributes, which
argparse adds exactly for the subcommands that declare those flags
(`hasattr(args, "gpu") and hasattr(args, "cpu")` in the source).
Fields not defined for a given subcommand are never read by `main`
on that command path. -/
structure Args where
  command : Option String
  model : Option String
  models : List String
  results : Option String
  output_dir : Option String
  episodes : Int
  learning_starts : Int
  render : Bool
  video : Bool
  gpu : Bool
  cpu : Bool
  hasGpuCpu : Bool
  deriving Repr, DecidableEq

/-- Behaviour of the external collaborators for one process run:
which device `utils.get_device()` auto-detects, and whether
`evaluate_model` reports failure by returning `None`. -/
structure Env where
  autoDevice : Device
  evalFails : Bool
  deriving Repr, DecidableEq

/-- Structured parse errors produced by the argparse model. -/
inductive ParseError
  | unknownCommand (c : String)
  | missingArgument (name : String)
  | missingValue (name : String)
  | invalidType (name : String) (raw : String)
  | unrecognized (token : String)
  deriving Repr, DecidableEq

/-- One observable event of a process run.  Each constructor corresponds
to a `print`, a hardware-capability query, a collaborator call, or the
usage text in `main.py`. -/
inductive Event
  | usageShown
  | parseErrorShown (e : ParseError)
  | errorConflict
  | queryCudaAvailable
  | queryCudaName
  | queryMpsAvailable
  | autoDetect
  | usingCuda (name : String)
  | usingMps
  | warnNoGpu
  | forcingCpu
  | overrideEpisodes (oldV newV : Int)
  | overrideLearningStarts (oldV newV : Int)
  | trainingComplete
  | evaluationFailed
  | callTrain (device : Device) (render : Bool) (outputDir : Option String)
  | callEvaluate (modelPath : String) (episodes : Int) (render : Bool)
      (video : Bool) (device : Device)
  | callCompare (models : List String) (episodes : Int) (device : Device)
  | callVisualize (results : String)
  | unknownCommandBranch (cmd : String)
  deriving Repr, DecidableEq

/-- Collaborator entry-point invocations (dispatch calls). -/
def isCollabCall : Event → Bool
  | Event.callTrain _ _ _ => true
  | Event.callEvaluate _ _ _ _ _ => true
  | Event.callCompare _ _ _ => true
  | Event.callVisualize _ => true
  | _ => false

/-- Hardware-capability queries performed by `determine_device`. -/
def isCapQuery : Event → Bool
  | Event.queryCudaAvailable => true
  | Event.queryCudaName => true
  | Event.queryMpsAvailable => true
  | _ => false

/-- Warning notices (prints beginning with `Warning:` in the source). -/
def isWarning : Event → Bool
  | Event.warnNoGpu => true
  | _ => false

/-- Config-override notices emitted by the override applier. -/
def isOverrideNotice : Event → Bool
  | Event.overrideEpisodes _ _ => true
  | Event.overrideLearningStarts _ _ => true
  | _ => false

/-- Override notices for the episode count specifically. -/
def isEpisodesNotice : Event → Bool
  | Event.overrideEpisodes _ _ => true
  | _ => false

/-- Override notices for the learning-start threshold specifically. -/
def isLearningStartsNotice : Event → Bool
  | Event.overrideLearningStarts _ _ => true
  | _ => false

/-- The observable outcome of one process run: the event trace, the
process exit code, and the final state of the `config` module. -/
structure RunResult where
  events : List Event
  exitCode : Nat
  finalConfig : Config
  deriving Repr, DecidableEq

/-- The function `determine_device(args)` from `main.py`.  Returns the emitted events
together with either the resolved device or the exit code passed to
`sys.exit`.  `autoDevice` is the result of the external
`utils.get_device()` auto-detection collaborator. -/
def determine_device (args : Args) (caps : Caps) (autoDevice : Device) :
    List Event × Except Nat Device :=
  if args.hasGpuCpu then
    if args.gpu && args.cpu then
      ([Event.errorConflict], Except.error 1)
    else if args.gpu then
      if caps.cudaAvailable then
        ([Event.queryCudaAvailable, Event.queryCudaName,
          Event.usingCuda caps.cudaDeviceName], Except.ok Device.cuda)
      else if appleSiliconAvailable caps then
        ([Event.queryCudaAvailable, Event.queryMpsAvailable,
          Event.usingMps], Except.ok Device.mps)
      else
        ([Event.queryCudaAvailable] ++
          (if caps.mpsBackendExists then [Event.queryMpsAvailable] else []) ++
          [Event.warnNoGpu], Except.ok Device.cpu)
    else if args.cpu then
      ([Event.forcingCpu], Except.ok Device.cpu)
    else
      ([Event.autoDetect], Except.ok autoDevice)
  else
    ([Event.autoDetect], Except.ok autoDevice)

/-- The config-override block at the start of the `train` branch of
`main`: each field whose parsed value differs from the current module
default is overwritten, with a notice naming old and new value. -/
def trainOverrides (args : Args) (cfg : Config) : List Event × Config :=
  let s1 :=
    if args.episodes ≠ cfg.TRAINING_EPISODES then
      ([Event.overrideEpisodes cfg.TRAINING_EPISODES args.episodes],
       { cfg with TRAINING_EPISODES := args.episodes })
    else ([], cfg)
  let s2 :=
    if args.learning_starts ≠ s1.2.LEARNING_STARTS then
      ([Event.overrideLearningStarts s1.2.LEARNING_STARTS args.learning_starts],
       { s1.2 with LEARNING_STARTS := args.learning_starts })
    else ([], s1.2)
  (s1.1 ++ s2.1, s2.2)

/-- The body of `main()` after argument parsing: usage on a missing
subcommand, device resolution, the train-only override applier, and the
finite dispatch over the command identifier with its default branch. -/
def mainWithArgs (caps : Caps) (env : Env) (cfg : Config) (args : Args) :
    RunResult :=
  match args.command with
  | none => { events := [Event.usageShown], exitCode := 0, finalConfig := cfg }
  | some cmd =>
    match determine_device args caps env.autoDevice with
    | (devEvents, Except.error code) =>
        { events := devEvents, exitCode := code, finalConfig := cfg }
    | (devEvents, Except.ok device) =>
        if cmd = "train" then
          let oc := trainOverrides args cfg
          { events := devEvents ++ oc.1 ++
              [Event.callTrain device args.render args.output_dir,
               Event.trainingComplete],
            exitCode := 0, finalConfig := oc.2 }
        else if cmd = "evaluate" then
          let callEv := Event.callEvaluate (args.model.getD "") args.episodes
            args.render args.video device
          if env.evalFails then
            { events := devEvents ++ [callEv, Event.evaluationFailed],
              exitCode := 0, finalConfig := cfg }
          else
            { events := devEvents ++ [callEv], exitCode := 0, finalConfig := cfg }
        else if cmd = "compare" then
          { events := devEvents ++
              [Event.callCompare args.models args.episodes device],
            exitCode := 0, finalConfig := cfg }
        else if cmd = "visualize" then
          { events := devEvents ++ [Event.callVisualize (args.results.getD "")],
            exitCode := 0, finalConfig := cfg }
        else
          { events := devEvents ++
              [Event.unknownCommandBranch cmd, Event.usageShown],
            exitCode := 0, finalConfig := cfg }

/-- A decimal digit. -/
def isDigitChar (c : Char) : Bool := '0' ≤ c && c ≤ '9'

/-- Numeric value of a list of decimal digits. -/
def digitsVal (ds : List Char) : Nat :=
  ds.foldl (fun n c => n * 10 + (c.toNat - '0'.toNat)) 0

/-- Modelled from the spec: argparse's `type=int` conversion (Python
`int()`, which is library behaviour outside this repository): an
optional minus sign followed by one or more decimal digits; anything
else is a conversion failure. -/
def strToInt? (s : String) : Option Int :=
  match s.data with
  | [] => none
  | '-' :: ds =>
    if ds ≠ [] ∧ ds.all isDigitChar then some (-(digitsVal ds : Int))
    else none
  | ds => if ds.all isDigitChar then some (digitsVal ds : Int) else none

/-- Modelled from the spec: a raw token argparse treats as an optional
flag rather than a positional value (it begins with `-`). -/
def isFlagToken (s : String) : Bool :=
  match s.data with
  | '-' :: _ => true
  | _ => false

/-- The namespace argparse produces when no subcommand is given:
`command` is `None` and no subcommand attributes exist. -/
def noCommandArgs : Args :=
  { command := none, model := none, models := [], results := none,
    output_dir := none, episodes := 0, learning_starts := 0, render := false,
    video := false, gpu := false, cpu := false, hasGpuCpu := false }

/-- Defaults of the `train` subparser.  `--episodes` and
`--learning_starts` default to the compiled-in `config` values. -/
def trainDefaults (cfg : Config) : Args :=
  { command := some "train", model := none, models := [], results := none,
    output_dir := none, episodes := cfg.TRAINING_EPISODES,
    learning_starts := cfg.LEARNING_STARTS, render := false, video := false,
    gpu := false, cpu := false, hasGpuCpu := true }

/-- Defaults of the `evaluate` subparser (positional `model` still unset;
`--episodes` defaults to 10).  The `learning_starts` slot does not exist
on this namespace and is never read on this command path. -/
def evaluateDefaults : Args :=
  { command := some "evaluate", model := none, models := [], results := none,
    output_dir := none, episodes := 10, learning_starts := 0, render := false,
    video := false, gpu := false, cpu := false, hasGpuCpu := true }

/-- Defaults of the `compare` subparser (positional `models` still empty;
`--episodes` defaults to 10). -/
def compareDefaults : Args :=
  { command := some "compare", model := none, models := [], results := none,
    output_dir := none, episodes := 10, learning_starts := 0, render := false,
    video := false, gpu := false, cpu := false, hasGpuCpu := true }

/-- Defaults of the `visualize` subparser (positional `results` still
unset; this subparser declares no `gpu`/`cpu` flags). -/
def visualizeDefaults : Args :=
  { command := some "visualize", model := none, models := [], results := none,
    output_dir := none, episodes := 0, learning_starts := 0, render := false,
    video := false, gpu := false, cpu := false, hasGpuCpu := false }

/-- Token loop of the `train` subparser: the declared flags, no
positional arguments. -/
def parseTrainTokens : List String → Args → Except ParseError Args
  | [], a => Except.ok a
  | t :: rest, a =>
    if t = "--output_dir" then
      match rest with
      | v :: rest2 => parseTrainTokens rest2 { a with output_dir := some v }
      | [] => Except.error (ParseError.missingValue "output_dir")
    else if t = "--episodes" then
      match rest with
      | v :: rest2 =>
        match strToInt? v with
        | some n => parseTrainTokens rest2 { a with episodes := n }
        | none => Except.error (ParseError.invalidType "episodes" v)
      | [] => Except.error (ParseError.missingValue "episodes")
    else if t = "--learning_starts" then
      match rest with
      | v :: rest2 =>
        match strToInt? v with
        | some n => parseTrainTokens rest2 { a with learning_starts := n }
        | none => Except.error (ParseError.invalidType "learning_starts" v)
      | [] => Except.error (ParseError.missingValue "learning_starts")
    else if t = "--model" then
      match rest with
      | v :: rest2 => parseTrainTokens rest2 { a with model := some v }
      | [] => Except.error (ParseError.missingValue "model")
    else if t = "--render" then parseTrainTokens rest { a with render := true }
    else if t = "--gpu" then parseTrainTokens rest { a with gpu := true }
    else if t = "--cpu" then parseTrainTokens rest { a with cpu := true }
    else Except.error (ParseError.unrecognized t)

/-- Token loop of the `evaluate` subparser: the declared flags plus one
required positional `model`. -/
def parseEvaluateTokens : List String → Args → Except ParseError Args
  | [], a => Except.ok a
  | t :: rest, a =>
    if t = "--episodes" then
      match rest with
      | v :: rest2 =>
        match strToInt? v with
        | some n => parseEvaluateTokens rest2 { a with episodes := n }
        | none => Except.error (ParseError.invalidType "episodes" v)
      | [] => Except.error (ParseError.missingValue "episodes")
    else if t = "--render" then parseEvaluateTokens rest { a with render := true }
    else if t = "--video" then parseEvaluateTokens rest { a with video := true }
    else if t = "--gpu" then parseEvaluateTokens rest { a with gpu := true }
    else if t = "--cpu" then parseEvaluateTokens rest { a with cpu := true }
    else if isFlagToken t then Except.error (ParseError.unrecognized t)
    else
      match a.model with
      | none => parseEvaluateTokens rest { a with model := some t }
      | some _ => Except.error (ParseError.unrecognized t)

/-- Token loop of the `compare` subparser: the declared flags plus a
one-or-more positional list `models`, order preserved. -/
def parseCompareTokens : List String → Args → Except ParseError Args
  | [], a => Except.ok a
  | t :: rest, a =>
    if t = "--episodes" then
      match rest with
      | v :: rest2 =>
        match strToInt? v with
        | some n => parseCompareTokens rest2 { a with episodes := n }
        | none => Except.error (ParseError.invalidType "episodes" v)
      | [] => Except.error (ParseError.missingValue "episodes")
    else if t = "--gpu" then parseCompareTokens rest { a with gpu := true }
    else if t = "--cpu" then parseCompareTokens rest { a with cpu := true }
    else if isFlagToken t then Except.error (ParseError.unrecognized t)
    else parseCompareTokens rest { a with models := a.models ++ [t] }

/-- Token loop of the `visualize` subparser: one required positional
`results`, no flags. -/
def parseVisualizeTokens : List String → Args → Except ParseError Args
  | [], a => Except.ok a
  | t :: rest, a =>
    if isFlagToken t then Except.error (ParseError.unrecognized t)
    else
      match a.results with
      | none => parseVisualizeTokens rest { a with results := some t }
      | some _ => Except.error (ParseError.unrecognized t)

/-- The argparse front end: selects the subparser named by the first
token, runs its token loop from the subcommand defaults, and enforces the
required positionals.  An empty argument list is not an error and yields
the `command = None` namespace. -/
def parseArgs (cfg : Config) : List String → Except ParseError Args
  | [] => Except.ok noCommandArgs
  | c :: rest =>
    if c = "train" then parseTrainTokens rest (trainDefaults cfg)
    else if c = "evaluate" then
      match parseEvaluateTokens rest evaluateDefaults with
      | Except.ok a =>
        if a.model.isSome then Except.ok a
        else Except.error (ParseError.missingArgument "model")
      | Except.error e => Except.error e
    else if c = "compare" then
      match parseCompareTokens rest compareDefaults with
      | Except.ok a =>
        if a.models.isEmpty then Except.error (ParseError.missingArgument "models")
        else Except.ok a
      | Except.error e => Except.error e
    else if c = "visualize" then
      match parseVisualizeTokens rest visualizeDefaults with
      | Except.ok a =>
        if a.results.isSome then Except.ok a
        else Except.error (ParseError.missingArgument "results")
      | Except.error e => Except.error e
    else Except.error (ParseError.unknownCommand c)

/-- The whole of `main()`: parse the raw arguments, then run the
dispatcher body.  Argparse reports a parse failure itself and exits the
process with code 2. -/
def mainRun (cfg : Config) (caps : Caps) (env : Env) (tokens : List String) :
    RunResult :=
  match parseArgs cfg tokens with
  | Except.error e =>
      { events := [Event.parseErrorShown e], exitCode := 2, finalConfig := cfg }
  | Except.ok args => mainWithArgs caps env cfg args

/-- Events that `determine_device` itself can emit. -/
def isDeviceEvent : Event → Bool
  | Event.errorConflict => true
  | Event.queryCudaAvailable => true
  | Event.queryCudaName => true
  | Event.queryMpsAvailable => true
  | Event.autoDetect => true
  | Event.usingCuda _ => true
  | Event.usingMps => true
  | Event.warnNoGpu => true
  | Event.forcingCpu => true
  | _ => false

/-- A concrete compiled-in configuration used to instantiate theorems. -/
def cfgW : Config :=
  { TRAINING_EPISODES := 1000, LEARNING_STARTS := 50000, others := [] }

/-- A capability state with no accelerator at all. -/
def capsNone : Caps :=
  { cudaAvailable := false, cudaDeviceName := "", mpsBackendExists := false,
    mpsAvailable := false }

/-- A capability state with a CUDA accelerator present. -/
def capsCuda : Caps :=
  { cudaAvailable := true, cudaDeviceName := "RTX", mpsBackendExists := false,
    mpsAvailable := false }

/-- Collaborators behaving normally, auto-detection yielding CPU. -/
def envW : Env := { autoDevice := Device.cpu, evalFails := false }

/-- Collaborators with `evaluate_model` reporting failure (returning `None`). -/
def envFailW : Env := { autoDevice := Device.cpu, evalFails := true }

/-- A parsed `train` invocation with both device flags set. -/
def argsTrainConflict : Args :=
  { trainDefaults cfgW with gpu := true, cpu := true }

/-- A parsed `train` invocation forcing the accelerator. -/
def argsTrainGpu : Args := { trainDefaults cfgW with gpu := true }

/-- A parsed `evaluate model.pth` invocation with default flags. -/
def argsEvalW : Args := { evaluateDefaults with model := some "model.pth" }

/-- A parsed `compare a.pth b.pth` invocation with default flags. -/
def argsCompareW : Args :=
  { compareDefaults with models := ["a.pth", "b.pth"] }

/-- The marker of the dispatcher's default (unknown-command) branch. -/
def isUnknownCmdBranch : Event → Bool
  | Event.unknownCommandBranch _ => true
  | _ => false

/-- A parsed `train --episodes 500` invocation (500 differs from the
compiled-in default of `cfgW`). -/
def argsTrainEp : Args := { trainDefaults cfgW with episodes := 500 }

/-- A parsed `visualize r.pkl` invocation. -/
def argsVizW : Args := { visualizeDefaults with results := some "r.pkl" }

/-- Every event emitted by `determine_device` is a device-resolution event. -/
theorem determine_device_events_are_device (args : Args) (caps : Caps)
    (d : Device) :
    ∀ e ∈ (determine_device args caps d).1, isDeviceEvent e = true := by
  unfold determine_device
  split_ifs <;> intro e he <;> cases e <;> simp_all [isDeviceEvent]

/-- Device-resolution events are not collaborator calls. -/
theorem deviceEvent_not_collab (e : Event) (h : isDeviceEvent e = true) :
    isCollabCall e = false := by
  cases e <;> simp_all [isDeviceEvent, isCollabCall]

/-- Device-resolution events are not override notices. -/
theorem deviceEvent_not_override (e : Event) (h : isDeviceEvent e = true) :
    isOverrideNotice e = false := by
  cases e <;> simp_all [isDeviceEvent, isOverrideNotice]

/-- Device-resolution events never mark the unknown-command branch. -/
theorem deviceEvent_not_unknown (e : Event) (h : isDeviceEvent e = true)
    (c : String) : e ≠ Event.unknownCommandBranch c := by
  cases e <;> simp_all [isDeviceEvent]

/-- Override notices are neither warnings nor collaborator calls. -/
theorem overrideNotice_not_warning_collab (e : Event)
    (h : isOverrideNotice e = true) :
    isWarning e = false ∧ isCollabCall e = false := by
  cases e <;> simp_all [isOverrideNotice, isWarning, isCollabCall]

/-- Every event emitted by the override applier is an override notice. -/
theorem trainOverrides_events_are_override (args : Args) (cfg : Config) :
    ∀ e ∈ (trainOverrides args cfg).1, isOverrideNotice e = true := by
  intro e he
  simp only [trainOverrides] at he
  split_ifs at he <;> cases e <;> simp_all [isOverrideNotice]

/-- Unless both device flags are set on a namespace that has them,
`determine_device` resolves a device rather than exiting. -/
theorem determine_device_ok (args : Args) (caps : Caps) (d : Device)
    (hok : ¬(args.hasGpuCpu = true ∧ args.gpu = true ∧ args.cpu = true)) :
    ∃ evs dv, determine_device args caps d = (evs, Except.ok dv) := by
  unfold determine_device
  split_ifs with h1 h2 <;>
    first
      | exact ⟨_, _, rfl⟩
      | (simp at h2; exact absurd ⟨h1, h2.1, h2.2⟩ hok)

/-- Claim C1: On every command whose namespace carries the device flags, an
invocation with both `--gpu` and `--cpu` set makes the process exit with
code 1 (non-zero); its whole trace is the single conflict-error message,
so no hardware capability is queried and no collaborator entry point is
invoked (dispatch call count is 0). -/
theorem claim_C1_conflict_fatal (cfg : Config) (caps : Caps) (env : Env)
    (args : Args) (cmd : String)
    (hcmd : args.command = some cmd) (hHas : args.hasGpuCpu = true)
    (hGpu : args.gpu = true) (hCpu : args.cpu = true) :
    (mainWithArgs caps env cfg args).exitCode = 1 ∧
    (mainWithArgs caps env cfg args).events = [Event.errorConflict] ∧
    (mainWithArgs caps env cfg args).events.countP isCapQuery = 0 ∧
    (mainWithArgs caps env cfg args).events.countP isCollabCall = 0 := by
  have hdev : determine_device args caps env.autoDevice =
      ([Event.errorConflict], Except.error 1) := by
    unfold determine_device
    simp [hHas, hGpu, hCpu]
  simp [mainWithArgs, hcmd, hdev, isCapQuery, isCollabCall]

/-- Witness for C1 at the concrete invocation `train --gpu --cpu`. -/
theorem claim_C1_witness :
    argsTrainConflict.command = some "train" ∧
    argsTrainConflict.hasGpuCpu = true ∧
    argsTrainConflict.gpu = true ∧ argsTrainConflict.cpu = true ∧
    ((mainWithArgs capsNone envW cfgW argsTrainConflict).exitCode = 1 ∧
     (mainWithArgs capsNone envW cfgW argsTrainConflict).events =
       [Event.errorConflict] ∧
     (mainWithArgs capsNone envW cfgW argsTrainConflict).events.countP
       isCapQuery = 0 ∧
     (mainWithArgs capsNone envW cfgW argsTrainConflict).events.countP
       isCollabCall = 0) :=
  ⟨rfl, rfl, rfl, rfl,
   claim_C1_conflict_fatal cfgW capsNone envW argsTrainConflict "train"
     rfl rfl rfl rfl⟩

/-- Claim C3: With `--gpu` set and `--cpu` unset, device resolution is the
deterministic priority order CUDA, then Apple Silicon, then CPU, for
every capability state. -/
theorem claim_C3_gpu_priority (args : Args) (caps : Caps)
    (autoDevice : Device) (hHas : args.hasGpuCpu = true)
    (hGpu : args.gpu = true) (hCpu : args.cpu = false) :
    (determine_device args caps autoDevice).2 =
      Except.ok (if caps.cudaAvailable then Device.cuda
        else if appleSiliconAvailable caps then Device.mps
        else Device.cpu) := by
  unfold determine_device
  simp [hHas, hGpu, hCpu]
  split_ifs <;> rfl

/-- Witness for C3 at the concrete invocation `train --gpu` on a machine
with a CUDA accelerator. -/
theorem claim_C3_witness :
    argsTrainGpu.hasGpuCpu = true ∧ argsTrainGpu.gpu = true ∧
    argsTrainGpu.cpu = false ∧
    (determine_device argsTrainGpu capsCuda Device.cpu).2 =
      Except.ok (if capsCuda.cudaAvailable then Device.cuda
        else if appleSiliconAvailable capsCuda then Device.mps
        else Device.cpu) :=
  ⟨rfl, rfl, rfl,
   claim_C3_gpu_priority argsTrainGpu capsCuda Device.cpu rfl rfl rfl⟩

/-- The override applier emits no warning notices. -/
theorem trainOverrides_countP_warning (args : Args) (cfg : Config) :
    ((trainOverrides args cfg).1).countP isWarning = 0 := by
  rw [List.countP_eq_zero]
  intro e he
  have h := trainOverrides_events_are_override args cfg e he
  simp [(overrideNotice_not_warning_collab e h).1]

/-- The override applier performs no collaborator calls. -/
theorem trainOverrides_countP_collab (args : Args) (cfg : Config) :
    ((trainOverrides args cfg).1).countP isCollabCall = 0 := by
  rw [List.countP_eq_zero]
  intro e he
  have h := trainOverrides_events_are_override args cfg e he
  simp [(overrideNotice_not_warning_collab e h).2]

/-- Claim C4: When `--gpu` is set, `--cpu` is unset, and no CUDA or
Apple-Silicon capability is reported, the run resolves to CPU and
proceeds: exit code 0 (the process is never terminated), exactly one
warning notice in the whole trace, and exactly one collaborator call. -/
theorem claim_C4_graceful_degradation (cfg : Config) (caps : Caps)
    (env : Env) (args : Args) (cmd : String)
    (hcmd : args.command = some cmd)
    (hmem : cmd = "train" ∨ cmd = "evaluate" ∨ cmd = "compare")
    (hHas : args.hasGpuCpu = true) (hGpu : args.gpu = true)
    (hCpu : args.cpu = false)
    (hcuda : caps.cudaAvailable = false)
    (hmps : appleSiliconAvailable caps = false) :
    (mainWithArgs caps env cfg args).exitCode = 0 ∧
    (mainWithArgs caps env cfg args).events.countP isWarning = 1 ∧
    (mainWithArgs caps env cfg args).events.countP isCollabCall = 1 := by
  have hdev : determine_device args caps env.autoDevice =
      ([Event.queryCudaAvailable] ++
        (if caps.mpsBackendExists then [Event.queryMpsAvailable] else []) ++
        [Event.warnNoGpu], Except.ok Device.cpu) := by
    unfold determine_device
    simp [hHas, hGpu, hCpu, hcuda, hmps]
  rcases hmem with h | h | h <;> subst h <;>
    cases hb : caps.mpsBackendExists <;>
    cases hf : env.evalFails <;>
    simp [mainWithArgs, hcmd, hdev, hb, hf, List.countP_append,
      List.countP_cons, trainOverrides_countP_warning,
      trainOverrides_countP_collab, isWarning, isCollabCall]

/-- Witness for C4 at the concrete invocation `train --gpu` on a machine
with no accelerator. -/
theorem claim_C4_witness :
    argsTrainGpu.command = some "train" ∧
    argsTrainGpu.hasGpuCpu = true ∧ argsTrainGpu.gpu = true ∧
    argsTrainGpu.cpu = false ∧ capsNone.cudaAvailable = false ∧
    appleSiliconAvailable capsNone = false ∧
    ((mainWithArgs capsNone envW cfgW argsTrainGpu).exitCode = 0 ∧
     (mainWithArgs capsNone envW cfgW argsTrainGpu).events.countP
       isWarning = 1 ∧
     (mainWithArgs capsNone envW cfgW argsTrainGpu).events.countP
       isCollabCall = 1) :=
  ⟨rfl, rfl, rfl, rfl, rfl, rfl,
   claim_C4_graceful_degradation cfgW capsNone envW argsTrainGpu "train"
     rfl (Or.inl rfl) rfl rfl rfl rfl rfl⟩

/-- Claim C2 counterexample: running `evaluate model.pth --episodes 10` with
the evaluation collaborator reporting failure prints the
"Evaluation failed." message, but `main` then simply returns, so the
process exit code is 0 — refuting the non-zero/failure exit signal the
claim requires. -/
theorem claim_C2_counterexample :
    Event.evaluationFailed ∈
      (mainRun cfgW capsNone envFailW
        ["evaluate", "model.pth", "--episodes", "10"]).events ∧
    (mainRun cfgW capsNone envFailW
        ["evaluate", "model.pth", "--episodes", "10"]).exitCode = 0 := by
  decide

/-- Claim C2 as amended: when the evaluation collaborator reports failure, the
user is shown the "Evaluation failed." message and the process
terminates normally (no stack fault) — but with exit code 0, not a
failure exit code. -/
theorem claim_C2_amended (cfg : Config) (caps : Caps) (env : Env)
    (args : Args) (hcmd : args.command = some "evaluate")
    (hok : ¬(args.hasGpuCpu = true ∧ args.gpu = true ∧ args.cpu = true))
    (hfail : env.evalFails = true) :
    Event.evaluationFailed ∈ (mainWithArgs caps env cfg args).events ∧
    (mainWithArgs caps env cfg args).exitCode = 0 := by
  obtain ⟨evs, dv, hdev⟩ := determine_device_ok args caps env.autoDevice hok
  simp [mainWithArgs, hcmd, hdev, hfail]

/-- Witness for the amended C2 at `evaluate model.pth` with a failing
collaborator. -/
theorem claim_C2_amended_witness :
    argsEvalW.command = some "evaluate" ∧
    ¬(argsEvalW.hasGpuCpu = true ∧ argsEvalW.gpu = true ∧
      argsEvalW.cpu = true) ∧
    envFailW.evalFails = true ∧
    (Event.evaluationFailed ∈
      (mainWithArgs capsNone envFailW cfgW argsEvalW).events ∧
     (mainWithArgs capsNone envFailW cfgW argsEvalW).exitCode = 0) :=
  ⟨rfl, by decide, rfl,
   claim_C2_amended cfgW capsNone envFailW argsEvalW rfl (by decide) rfl⟩

/-- A list in which no event satisfies `p` has `countP p` zero. -/
theorem countP_zero_of_forall (l : List Event) (p : Event → Bool)
    (h : ∀ e ∈ l, p e = false) : l.countP p = 0 := by
  rw [List.countP_eq_zero]
  intro e he
  simp [h e he]

/-- The count of any predicate refuted by all device-resolution events is
zero on a `determine_device` trace. -/
theorem determine_device_countP_zero (args : Args) (caps : Caps)
    (d : Device) (p : Event → Bool)
    (hp : ∀ e, isDeviceEvent e = true → p e = false) :
    ((determine_device args caps d).1).countP p = 0 :=
  countP_zero_of_forall _ _
    (fun e he => hp e (determine_device_events_are_device args caps d e he))

/-- Device-resolution events are not episode-override notices. -/
theorem deviceEvent_not_episodesNotice (e : Event)
    (h : isDeviceEvent e = true) : isEpisodesNotice e = false := by
  cases e <;> simp_all [isDeviceEvent, isEpisodesNotice]

/-- Device-resolution events are not learning-start override notices. -/
theorem deviceEvent_not_learningStartsNotice (e : Event)
    (h : isDeviceEvent e = true) : isLearningStartsNotice e = false := by
  cases e <;> simp_all [isDeviceEvent, isLearningStartsNotice]

/-- Device-resolution events never mark the unknown-command branch. -/
theorem deviceEvent_not_unknownCmdBranch (e : Event)
    (h : isDeviceEvent e = true) : isUnknownCmdBranch e = false := by
  cases e <;> simp_all [isDeviceEvent, isUnknownCmdBranch]

/-- Claim C5: On the train path (with device resolution succeeding), a parsed
`--episodes` value differing from the compiled-in default makes the
final configuration hold exactly that value, with exactly one override
notice naming the old and the new value; a value equal to the default
leaves the field unchanged with no notice.  The same holds for
`--learning_starts`, and when neither value differs the configuration is
unchanged as a whole. -/
theorem claim_C5_override_applier (cfg : Config) (caps : Caps) (env : Env)
    (args : Args) (hcmd : args.command = some "train")
    (hok : ¬(args.hasGpuCpu = true ∧ args.gpu = true ∧ args.cpu = true)) :
    (args.episodes ≠ cfg.TRAINING_EPISODES →
      (mainWithArgs caps env cfg args).finalConfig.TRAINING_EPISODES =
        args.episodes ∧
      (mainWithArgs caps env cfg args).events.countP isEpisodesNotice = 1 ∧
      Event.overrideEpisodes cfg.TRAINING_EPISODES args.episodes ∈
        (mainWithArgs caps env cfg args).events) ∧
    (args.episodes = cfg.TRAINING_EPISODES →
      (mainWithArgs caps env cfg args).finalConfig.TRAINING_EPISODES =
        cfg.TRAINING_EPISODES ∧
      (mainWithArgs caps env cfg args).events.countP isEpisodesNotice = 0) ∧
    (args.learning_starts ≠ cfg.LEARNING_STARTS →
      (mainWithArgs caps env cfg args).finalConfig.LEARNING_STARTS =
        args.learning_starts ∧
      (mainWithArgs caps env cfg args).events.countP
        isLearningStartsNotice = 1 ∧
      Event.overrideLearningStarts cfg.LEARNING_STARTS args.learning_starts ∈
        (mainWithArgs caps env cfg args).events) ∧
    (args.learning_starts = cfg.LEARNING_STARTS →
      (mainWithArgs caps env cfg args).finalConfig.LEARNING_STARTS =
        cfg.LEARNING_STARTS ∧
      (mainWithArgs caps env cfg args).events.countP
        isLearningStartsNotice = 0) ∧
    (args.episodes = cfg.TRAINING_EPISODES ∧
      args.learning_starts = cfg.LEARNING_STARTS →
      (mainWithArgs caps env cfg args).finalConfig = cfg) := by
  obtain ⟨evs, dv, hdev⟩ := determine_device_ok args caps env.autoDevice hok
  have hz1 : evs.countP isEpisodesNotice = 0 := by
    have := determine_device_countP_zero args caps env.autoDevice
      isEpisodesNotice deviceEvent_not_episodesNotice
    rw [hdev] at this
    exact this
  have hz2 : evs.countP isLearningStartsNotice = 0 := by
    have := determine_device_countP_zero args caps env.autoDevice
      isLearningStartsNotice deviceEvent_not_learningStartsNotice
    rw [hdev] at this
    exact this
  by_cases he : args.episodes = cfg.TRAINING_EPISODES <;>
    by_cases hl : args.learning_starts = cfg.LEARNING_STARTS <;>
    simp [mainWithArgs, hcmd, hdev, trainOverrides, he, hl,
      List.countP_append, List.countP_cons, hz1, hz2,
      isEpisodesNotice, isLearningStartsNotice]

/-- Witness for C5 at the concrete invocation `train --episodes 500`
against a compiled-in default of 1000. -/
theorem claim_C5_witness :
    argsTrainEp.command = some "train" ∧
    ¬(argsTrainEp.hasGpuCpu = true ∧ argsTrainEp.gpu = true ∧
      argsTrainEp.cpu = true) ∧
    argsTrainEp.episodes ≠ cfgW.TRAINING_EPISODES ∧
    ((mainWithArgs capsNone envW cfgW argsTrainEp).finalConfig.TRAINING_EPISODES =
        argsTrainEp.episodes ∧
     (mainWithArgs capsNone envW cfgW argsTrainEp).events.countP
        isEpisodesNotice = 1 ∧
     Event.overrideEpisodes cfgW.TRAINING_EPISODES argsTrainEp.episodes ∈
        (mainWithArgs capsNone envW cfgW argsTrainEp).events) :=
  ⟨rfl, by decide, by decide,
   (claim_C5_override_applier cfgW capsNone envW argsTrainEp rfl
      (by decide)).1 (by decide)⟩

/-- Claim C6: The evaluate, compare and visualize paths leave every field of
the configuration unchanged; and in every run the trace splits into a
prefix with no collaborator call and a suffix with no override notice,
so configuration mutation happens only before dispatch, never after. -/
theorem claim_C6_config_frame :
    (∀ (caps : Caps) (env : Env) (cfg : Config) (args : Args) (cmd : String),
      args.command = some cmd →
      (cmd = "evaluate" ∨ cmd = "compare" ∨ cmd = "visualize") →
      (mainWithArgs caps env cfg args).finalConfig = cfg) ∧
    (∀ (caps : Caps) (env : Env) (cfg : Config) (args : Args),
      ∃ pre post, (mainWithArgs caps env cfg args).events = pre ++ post ∧
        (∀ e ∈ pre, isCollabCall e = false) ∧
        (∀ e ∈ post, isOverrideNotice e = false)) := by
  constructor
  · intro caps env cfg args cmd hcmd hmem
    rcases hdev : determine_device args caps env.autoDevice with ⟨devEvs, res⟩
    cases res with
    | error code => rcases hmem with rfl | rfl | rfl <;>
        simp [mainWithArgs, hcmd, hdev]
    | ok dv =>
      cases hf : env.evalFails <;> rcases hmem with rfl | rfl | rfl <;>
        simp [mainWithArgs, hcmd, hdev, hf]
  · intro caps env cfg args
    cases hcmd : args.command with
    | none =>
      refine ⟨[Event.usageShown], [], by simp [mainWithArgs, hcmd], ?_, ?_⟩
      · intro e he
        simp at he
        subst he
        rfl
      · intro e he
        simp at he
    | some cmd =>
      rcases hdev : determine_device args caps env.autoDevice with ⟨devEvs, res⟩
      have hdevno : ∀ e ∈ devEvs, isCollabCall e = false := by
        intro e he
        exact deviceEvent_not_collab e
          (determine_device_events_are_device args caps env.autoDevice e
            (by rw [hdev]; exact he))
      cases res with
      | error code =>
        exact ⟨devEvs, [], by simp [mainWithArgs, hcmd, hdev], hdevno,
          by intro e he; simp at he⟩
      | ok dv =>
        by_cases h1 : cmd = "train"
        · subst h1
          refine ⟨devEvs ++ (trainOverrides args cfg).1,
            [Event.callTrain dv args.render args.output_dir,
             Event.trainingComplete], ?_, ?_, ?_⟩
          · simp [mainWithArgs, hcmd, hdev]
          · intro e he
            rcases List.mem_append.mp he with h | h
            · exact hdevno e h
            · exact (overrideNotice_not_warning_collab e
                (trainOverrides_events_are_override args cfg e h)).2
          · intro e he
            simp at he
            rcases he with rfl | rfl <;> rfl
        · by_cases h2 : cmd = "evaluate"
          · subst h2
            cases hf : env.evalFails
            · refine ⟨devEvs,
                [Event.callEvaluate (args.model.getD "") args.episodes
                  args.render args.video dv], ?_, hdevno, ?_⟩
              · simp [mainWithArgs, hcmd, hdev, hf]
              · intro e he
                simp at he
                subst he
                rfl
            · refine ⟨devEvs,
                [Event.callEvaluate (args.model.getD "") args.episodes
                  args.render args.video dv, Event.evaluationFailed],
                ?_, hdevno, ?_⟩
              · simp [mainWithArgs, hcmd, hdev, hf]
              · intro e he
                simp at he
                rcases he with rfl | rfl <;> rfl
          · by_cases h3 : cmd = "compare"
            · subst h3
              refine ⟨devEvs,
                [Event.callCompare args.models args.episodes dv], ?_,
                hdevno, ?_⟩
              · simp [mainWithArgs, hcmd, hdev]
              · intro e he
                simp at he
                subst he
                rfl
            · by_cases h4 : cmd = "visualize"
              · subst h4
                refine ⟨devEvs,
                  [Event.callVisualize (args.results.getD "")], ?_,
                  hdevno, ?_⟩
                · simp [mainWithArgs, hcmd, hdev]
                · intro e he
                  simp at he
                  subst he
                  rfl
              · refine ⟨devEvs,
                  [Event.unknownCommandBranch cmd, Event.usageShown], ?_,
                  hdevno, ?_⟩
                · simp [mainWithArgs, hcmd, hdev, h1, h2, h3, h4]
                · intro e he
                  simp at he
                  rcases he with rfl | rfl <;> rfl

/-- Witness for C6 at the concrete invocation `visualize r.pkl`. -/
theorem claim_C6_witness :
    argsVizW.command = some "visualize" ∧
    (mainWithArgs capsNone envW cfgW argsVizW).finalConfig = cfgW :=
  ⟨rfl, claim_C6_config_frame.1 capsNone envW cfgW argsVizW "visualize" rfl
    (Or.inr (Or.inr rfl))⟩

/-- The train token loop never changes the command identifier. -/
theorem parseTrainTokens_pres (ts : List String) (a : Args) :
    ∀ b, parseTrainTokens ts a = Except.ok b → b.command = a.command := by
  induction ts, a using parseTrainTokens.induct <;> intro b h <;>
    rw [parseTrainTokens.eq_def] at h <;> simp_all

/-- The evaluate token loop never changes the command identifier. -/
theorem parseEvaluateTokens_pres (ts : List String) (a : Args) :
    ∀ b, parseEvaluateTokens ts a = Except.ok b → b.command = a.command := by
  induction ts, a using parseEvaluateTokens.induct <;> intro b h <;>
    rw [parseEvaluateTokens.eq_def] at h <;> simp_all

/-- The compare token loop never changes the command identifier. -/
theorem parseCompareTokens_pres (ts : List String) (a : Args) :
    ∀ b, parseCompareTokens ts a = Except.ok b → b.command = a.command := by
  induction ts, a using parseCompareTokens.induct <;> intro b h <;>
    rw [parseCompareTokens.eq_def] at h <;> simp_all

/-- The visualize token loop never changes the command identifier. -/
theorem parseVisualizeTokens_pres (ts : List String) (a : Args) :
    ∀ b, parseVisualizeTokens ts a = Except.ok b → b.command = a.command := by
  induction ts, a using parseVisualizeTokens.induct <;> intro b h <;>
    rw [parseVisualizeTokens.eq_def] at h <;> simp_all

/-- Override notices never mark the unknown-command branch. -/
theorem overrideNotice_not_unknown (e : Event)
    (h : isOverrideNotice e = true) : isUnknownCmdBranch e = false := by
  cases e <;> simp_all [isOverrideNotice, isUnknownCmdBranch]

/-- Dispatching any of the four schema commands never reaches the
unknown-command branch. -/
theorem mainWithArgs_no_unknown (caps : Caps) (env : Env) (cfg : Config)
    (args : Args) (cmd : String) (hcmd : args.command = some cmd)
    (hmem : cmd = "train" ∨ cmd = "evaluate" ∨ cmd = "compare" ∨
      cmd = "visualize") :
    (mainWithArgs caps env cfg args).events.countP isUnknownCmdBranch = 0 := by
  rcases hdev : determine_device args caps env.autoDevice with ⟨devEvs, res⟩
  have hz : devEvs.countP isUnknownCmdBranch = 0 := by
    have := determine_device_countP_zero args caps env.autoDevice
      isUnknownCmdBranch deviceEvent_not_unknownCmdBranch
    rw [hdev] at this
    exact this
  have hov : ((trainOverrides args cfg).1).countP isUnknownCmdBranch = 0 :=
    countP_zero_of_forall _ _ (fun e he => overrideNotice_not_unknown e
      (trainOverrides_events_are_override args cfg e he))
  cases res with
  | error code => simp [mainWithArgs, hcmd, hdev, hz]
  | ok dv =>
    cases hf : env.evalFails <;> rcases hmem with rfl | rfl | rfl | rfl <;>
      simp [mainWithArgs, hcmd, hdev, hf, List.countP_append,
        List.countP_cons, hz, hov, isUnknownCmdBranch]

/-- Claim C7: Every successfully parsed invocation carries one of the four
schema command identifiers (or none, the usage case), and consequently
the dispatcher's default unknown-command branch is never reached on any
parsed run. -/
theorem claim_C7_finite_commands :
    (∀ (cfg : Config) (ts : List String) (args : Args),
      parseArgs cfg ts = Except.ok args →
      args.command = none ∨ args.command = some "train" ∨
      args.command = some "evaluate" ∨ args.command = some "compare" ∨
      args.command = some "visualize") ∧
    (∀ (cfg : Config) (ts : List String) (args : Args) (caps : Caps)
      (env : Env), parseArgs cfg ts = Except.ok args →
      (mainWithArgs caps env cfg args).events.countP
        isUnknownCmdBranch = 0) := by
  have hcmd : ∀ (cfg : Config) (ts : List String) (args : Args),
      parseArgs cfg ts = Except.ok args →
      args.command = none ∨ args.command = some "train" ∨
      args.command = some "evaluate" ∨ args.command = some "compare" ∨
      args.command = some "visualize" := by
    intro cfg ts args h
    cases ts with
    | nil =>
      simp [parseArgs] at h
      simp [← h, noCommandArgs]
    | cons c rest =>
      simp only [parseArgs] at h
      split_ifs at h with h1 h2 h3 h4
      · right; left
        rw [parseTrainTokens_pres rest (trainDefaults cfg) args h]
        rfl
      · cases hp : parseEvaluateTokens rest evaluateDefaults with
        | error e => rw [hp] at h; simp at h
        | ok a =>
          rw [hp] at h
          simp at h
          split_ifs at h with hm
          injection h with h
          subst h
          right; right; left
          rw [parseEvaluateTokens_pres rest evaluateDefaults a hp]
          rfl
      · cases hp : parseCompareTokens rest compareDefaults with
        | error e => rw [hp] at h; simp at h
        | ok a =>
          rw [hp] at h
          simp at h
          split_ifs at h with hm
          injection h with h
          subst h
          right; right; right; left
          rw [parseCompareTokens_pres rest compareDefaults a hp]
          rfl
      · cases hp : parseVisualizeTokens rest visualizeDefaults with
        | error e => rw [hp] at h; simp at h
        | ok a =>
          rw [hp] at h
          simp at h
          split_ifs at h with hm
          injection h with h
          subst h
          right; right; right; right
          rw [parseVisualizeTokens_pres rest visualizeDefaults a hp]
          rfl
  refine ⟨hcmd, ?_⟩
  intro cfg ts args caps env h
  rcases hcmd cfg ts args h with hc | hc | hc | hc | hc
  · simp [mainWithArgs, hc, isUnknownCmdBranch]
  · exact mainWithArgs_no_unknown caps env cfg args "train" hc (Or.inl rfl)
  · exact mainWithArgs_no_unknown caps env cfg args "evaluate" hc
      (Or.inr (Or.inl rfl))
  · exact mainWithArgs_no_unknown caps env cfg args "compare" hc
      (Or.inr (Or.inr (Or.inl rfl)))
  · exact mainWithArgs_no_unknown caps env cfg args "visualize" hc
      (Or.inr (Or.inr (Or.inr rfl)))

/-- Witness for C7 at the concrete raw argument list `["train"]`. -/
theorem claim_C7_witness :
    parseArgs cfgW ["train"] = Except.ok (trainDefaults cfgW) ∧
    ((trainDefaults cfgW).command = none ∨
     (trainDefaults cfgW).command = some "train" ∨
     (trainDefaults cfgW).command = some "evaluate" ∨
     (trainDefaults cfgW).command = some "compare" ∨
     (trainDefaults cfgW).command = some "visualize") ∧
    (mainWithArgs capsNone envW cfgW (trainDefaults cfgW)).events.countP
      isUnknownCmdBranch = 0 :=
  ⟨rfl,
   claim_C7_finite_commands.1 cfgW ["train"] (trainDefaults cfgW) rfl,
   claim_C7_finite_commands.2 cfgW ["train"] (trainDefaults cfgW) capsNone
     envW rfl⟩

/-- Claim C8: With no subcommand in the raw arguments, the run prints the
usage text only: exit code 0, zero collaborator calls, zero capability
queries, and no auto-detection (no device resolution at all). -/
theorem claim_C8_no_subcommand (cfg : Config) (caps : Caps) (env : Env) :
    mainRun cfg caps env [] =
      { events := [Event.usageShown], exitCode := 0, finalConfig := cfg } ∧
    (mainRun cfg caps env []).events.countP isCollabCall = 0 ∧
    (mainRun cfg caps env []).events.countP isCapQuery = 0 ∧
    Event.autoDetect ∉ (mainRun cfg caps env []).events := by
  simp [mainRun, parseArgs, noCommandArgs, mainWithArgs, isCollabCall,
    isCapQuery]

/-- Claim C10: Two parsed train invocations differing only in the `--model`
value (present or absent) produce identical runs: the dispatcher
forwards only device, render flag and output directory to the training
collaborator, so the `--model` value never influences the call. -/
theorem claim_C10_model_unused (caps : Caps) (env : Env) (cfg : Config)
    (args : Args) (m1 m2 : Option String)
    (hcmd : args.command = some "train") :
    mainWithArgs caps env cfg { args with model := m1 } =
      mainWithArgs caps env cfg { args with model := m2 } := by
  simp [mainWithArgs, hcmd, determine_device, trainOverrides]

/-- Witness for C10 at `train --gpu`, with `--model a.pth` versus no
`--model`. -/
theorem claim_C10_witness :
    argsTrainGpu.command = some "train" ∧
    mainWithArgs capsNone envW cfgW
        { argsTrainGpu with model := some "a.pth" } =
      mainWithArgs capsNone envW cfgW { argsTrainGpu with model := none } :=
  ⟨rfl, claim_C10_model_unused capsNone envW cfgW argsTrainGpu
    (some "a.pth") none rfl⟩

/-- On a flag-free token list the compare loop appends every token, in
order, to the positional model list. -/
theorem parseCompareTokens_flagless (ts : List String) :
    ∀ a : Args, (∀ t ∈ ts, isFlagToken t = false) →
      parseCompareTokens ts a =
        Except.ok { a with models := a.models ++ ts } := by
  induction ts with
  | nil => intro a h; simp [parseCompareTokens]
  | cons t rest ih =>
    intro a h
    have ht : isFlagToken t = false := h t (List.mem_cons_self t rest)
    have h1 : ¬t = "--episodes" := by
      intro hh
      rw [hh] at ht
      exact absurd ht (by decide)
    have h2 : ¬t = "--gpu" := by
      intro hh
      rw [hh] at ht
      exact absurd ht (by decide)
    have h3 : ¬t = "--cpu" := by
      intro hh
      rw [hh] at ht
      exact absurd ht (by decide)
    rw [parseCompareTokens.eq_def]
    simp only [h1, h2, h3, ht, if_false]
    rw [ih { a with models := a.models ++ [t] }
      (fun x hx => h x (List.mem_cons_of_mem t hx))]
    simp

/-- Claim C9: `compare` with a non-empty flag-free list of model paths parses
into an invocation whose positional list is exactly that list, in the
supplied order; the run's trace is auto-detection followed by exactly
the comparison-collaborator call carrying that list, the episode count
and the resolved device; and on every parsed compare invocation whose
device resolution succeeds, the dispatcher forwards exactly the parsed
model list, episode count and resolved device. -/
theorem claim_C9_compare_order (cfg : Config) (caps : Caps) (env : Env)
    (paths : List String) (hne : paths ≠ [])
    (hfl : ∀ t ∈ paths, isFlagToken t = false) :
    parseArgs cfg ("compare" :: paths) =
      Except.ok { compareDefaults with models := paths } ∧
    (mainRun cfg caps env ("compare" :: paths)).events =
      [Event.autoDetect, Event.callCompare paths 10 env.autoDevice] ∧
    ∀ (args : Args), args.command = some "compare" →
      ¬(args.hasGpuCpu = true ∧ args.gpu = true ∧ args.cpu = true) →
      ∃ devEvs dv,
        determine_device args caps env.autoDevice = (devEvs, Except.ok dv) ∧
        (mainWithArgs caps env cfg args).events =
          devEvs ++ [Event.callCompare args.models args.episodes dv] := by
  have hparse : parseArgs cfg ("compare" :: paths) =
      Except.ok { compareDefaults with models := paths } := by
    simp only [parseArgs]
    rw [parseCompareTokens_flagless paths compareDefaults hfl]
    simp [compareDefaults, hne]
  refine ⟨hparse, ?_, ?_⟩
  · simp [mainRun, hparse, mainWithArgs, determine_device, compareDefaults]
  · intro args hcmd hok
    obtain ⟨devEvs, dv, hdev⟩ :=
      determine_device_ok args caps env.autoDevice hok
    exact ⟨devEvs, dv, hdev, by simp [mainWithArgs, hcmd, hdev]⟩

/-- Witness for C9 at the concrete raw argument list
`["compare", "a.pth", "b.pth"]`. -/
theorem claim_C9_witness :
    (["a.pth", "b.pth"] : List String) ≠ [] ∧
    (∀ t ∈ (["a.pth", "b.pth"] : List String), isFlagToken t = false) ∧
    parseArgs cfgW ["compare", "a.pth", "b.pth"] =
      Except.ok { compareDefaults with models := ["a.pth", "b.pth"] } ∧
    (mainRun cfgW capsNone envW ["compare", "a.pth", "b.pth"]).events =
      [Event.autoDetect,
       Event.callCompare ["a.pth", "b.pth"] 10 envW.autoDevice] :=
  ⟨by decide, by decide,
   (claim_C9_compare_order cfgW capsNone envW ["a.pth", "b.pth"]
     (by decide) (by decide)).1,
   (claim_C9_compare_order cfgW capsNone envW ["a.pth", "b.pth"]
     (by decide) (by decide)).2.1⟩
